import Mathlib

/-!
Shallow embedding of `src/modules/core.py` — the pipeline orchestrator of the
media-transformation tool.  Python values of type `str | None` are modelled as
`Option String`; Python truthiness of such a value is `pathTruthy`.  Side
effects (status prints, calls into the external video toolkit and the frame
processors, workspace operations, process exit) are modelled as an explicit
trace of `Event`s, and the external collaborators (`modules/utilities.py`,
`modules/predicter.py`, the processor modules — none of which are under
`src/`) as an `Env` record of opaque functions.
-/

namespace Core

/-- Python `str | None` paths as stored in `modules.globals`. -/
abbrev Path := Option String

/-- Python truthiness of an optional string: `None` and `''` are falsy. -/
def pathTruthy : Path → Bool
  | none => false
  | some s => !s.isEmpty

/-- One observable side effect of the orchestrator: a status print, a call
into the video toolkit / workspace manager / a frame processor, or process
exit.  `core.py` is embedded as functions returning `List Event` traces. -/
inductive Event where
  | status (msg : String) (scope : String)
  | printMsg (msg : String)
  | cleanTemp (target : Path)
  | createTemp (target : Path)
  | extractFrames (target : Path)
  | preStartCheck (name : String)
  | processImage (name : String) (source target output : Path)
  | processVideo (name : String) (source : Path)
  | cudaEmptyCache
  | detectFpsCall (target : Path)
  | createVideo (target : Path) (fps : Rat)
  | restoreAudio (target output : Path)
  | moveTemp (target output : Path)
  | copyFile (src dst : Path)
  | quit
  deriving DecidableEq, Repr

/-- External collaborators of `core.py` that live outside `src/`
(`modules/utilities.py`, `modules/predicter.py`, frame-processor modules).
Their internals are not specified; they enter the embedding as opaque
functions. `copyFails` models `shutil.copy2` raising inside the
`try`/`except` of `process_image_to_image`. -/
structure Env where
  hasImageExt : Path → Bool
  isImage : Path → Bool
  isVideo : Path → Bool
  predictImage : Path → Bool
  predictVideo : Path → Bool
  detectFps : Path → Rat
  preStart : String → Bool
  copyFails : Bool

/-- The fields of `modules/globals.py` that `core.py` reads and writes. -/
structure Globals where
  source_path : Path
  target_path : Path
  output_path : Path
  frame_processors : List String
  headless : Bool
  keep_fps : Bool
  keep_audio : Bool
  keep_frames : Bool
  many_faces : Bool
  video_encoder : String
  video_quality : Nat
  max_memory : Nat
  execution_providers : List String
  execution_threads : Nat
  nsfw : Bool

/-- Python `str.replace` for a non-empty pattern, on character lists: scan
left to right, and at each position either match the whole pattern (emitting
the replacement and skipping it) or advance one character.  `fuel` bounds the
recursion; with `fuel = s.length` it never runs out, since every step
consumes at least one character. -/
def replaceChars (pat rep : List Char) : Nat → List Char → List Char
  | _, [] => []
  | 0, s => s
  | Nat.succ fuel, c :: cs =>
    if pat.isPrefixOf (c :: cs) && !pat.isEmpty then
      rep ++ replaceChars pat rep fuel ((c :: cs).drop pat.length)
    else
      c :: replaceChars pat rep fuel cs

/-- Python `s.replace(pat, rep)` (for the non-empty patterns used here). -/
def pyReplace (s pat rep : String) : String :=
  String.mk (replaceChars pat.data rep.data s.data.length s.data)

/-- Python `s.lower()`. -/
def pyLower (s : String) : String :=
  String.mk (s.data.map Char.toLower)

/-- The canonical form of one provider name, as computed inside
`encode_execution_providers`: Python
`provider.replace('ExecutionProvider', '').lower()`. -/
def encodeProvider (p : String) : String :=
  pyLower (pyReplace p "ExecutionProvider" "")

/-- `encode_execution_providers` from `core.py`. -/
def encode_execution_providers (execution_providers : List String) : List String :=
  execution_providers.map encodeProvider

/-- The list comprehension inside `decode_execution_providers`:
`[available_providers[encoded_providers.index(req)] for req in execution_providers
if req in encoded_providers]`. -/
def selectedProviders (execution_providers available_providers : List String) : List String :=
  (execution_providers.filter
      (fun req => req ∈ encode_execution_providers available_providers)).map
    (fun req =>
      available_providers.getD ((encode_execution_providers available_providers).indexOf req) "")

/-- `decode_execution_providers` from `core.py`; `available_providers` stands for
the host's `onnxruntime.get_available_providers()`. -/
def decode_execution_providers (execution_providers available_providers : List String) :
    List String :=
  if selectedProviders execution_providers available_providers = [] then
    ["CPUExecutionProvider"]
  else
    selectedProviders execution_providers available_providers

/-- `release_resources` from `core.py`: empties the CUDA cache when the literal
string `'cuda'` is a member of the resolved provider list. -/
def release_resources (g : Globals) : List Event :=
  if "cuda" ∈ g.execution_providers then [Event.cudaEmptyCache] else []

/-- `destroy` from `core.py`: cleans the workspace when the target path is
truthy, then exits the process when `to_quit` is set. -/
def destroy (g : Globals) (to_quit : Bool) : List Event :=
  (if pathTruthy g.target_path then [Event.cleanTemp g.target_path] else []) ++
  (if to_quit then [Event.quit] else [])

/-- Modelled from the spec: `create_video` lives in `modules/utilities.py`,
which is not under `src/`; the spec fixes the default value of its frame-rate
parameter — "otherwise encode at a fixed default rate (30.0)". -/
def create_video_default_fps : Rat := 30

/-- `handle_video_fps` from `core.py`. -/
def handle_video_fps (g : Globals) (env : Env) : List Event :=
  if g.keep_fps then
    [Event.status "Detecting fps..." "DLC.CORE",
     Event.detectFpsCall g.target_path,
     Event.status ("Creating video with " ++ toString (env.detectFps g.target_path) ++ " fps...")
       "DLC.CORE",
     Event.createVideo g.target_path (env.detectFps g.target_path)]
  else
    [Event.status "Creating video with 30.0 fps..." "DLC.CORE",
     Event.createVideo g.target_path create_video_default_fps]

/-- `handle_video_audio` from `core.py`. -/
def handle_video_audio (g : Globals) : List Event :=
  if g.keep_audio then
    [(if g.keep_fps then Event.status "Restoring audio..." "DLC.CORE"
      else Event.status "Restoring audio might cause issues as fps are not kept..." "DLC.CORE"),
     Event.restoreAudio g.target_path g.output_path]
  else
    [Event.moveTemp g.target_path g.output_path]

/-- `process_image_to_image` from `core.py`.  The trailing status message is
chosen by `is_image(modules.globals.target_path)`. -/
def process_image_to_image (g : Globals) (env : Env) : List Event :=
  if g.nsfw && env.predictImage g.target_path then
    destroy g false ++ [Event.status "Processing to image ignored!" "DLC.CORE"]
  else
    ((if env.copyFails then [Event.printMsg "Error copying file"]
      else [Event.copyFile g.target_path g.output_path]) ++
     (g.frame_processors.map (fun name =>
        [Event.status "Processing..." name,
         Event.processImage name g.source_path g.output_path g.output_path] ++
        release_resources g)).flatten) ++
    [if env.isImage g.target_path then Event.status "Processing to image succeeded!" "DLC.CORE"
     else Event.status "Processing to image failed!" "DLC.CORE"]

/-- `process_image_to_video` from `core.py`.  The trailing status message is
chosen by `is_video(modules.globals.target_path)`. -/
def process_image_to_video (g : Globals) (env : Env) : List Event :=
  if g.nsfw && env.predictVideo g.target_path then
    destroy g false ++ [Event.status "Processing to video ignored!" "DLC.CORE"]
  else
    ([Event.status "Creating temporary resources..." "DLC.CORE",
      Event.createTemp g.target_path,
      Event.status "Extracting frames..." "DLC.CORE",
      Event.extractFrames g.target_path] ++
     (g.frame_processors.map (fun name =>
        [Event.status "Processing..." name,
         Event.processVideo name g.source_path] ++
        release_resources g)).flatten ++
     handle_video_fps g env ++
     handle_video_audio g ++
     [Event.cleanTemp g.target_path]) ++
    [if env.isVideo g.target_path then Event.status "Processing to video succeeded!" "DLC.CORE"
     else Event.status "Processing to video failed!" "DLC.CORE"]

/-- The readiness loop at the top of `start`: calls `pre_start` on each
processor in order; stops at the first that reports not-ready.  Returns the
trace of readiness checks made, and whether all processors were ready. -/
def readinessTrace (env : Env) : List String → List Event × Bool
  | [] => ([], true)
  | p :: ps =>
    if env.preStart p then
      let r := readinessTrace env ps
      (Event.preStartCheck p :: r.1, r.2)
    else
      ([Event.preStartCheck p], false)

/-- `start` from `core.py`: readiness loop, then branch on
`has_image_extension(modules.globals.target_path)`. -/
def start (g : Globals) (env : Env) : List Event :=
  let r := readinessTrace env g.frame_processors
  if r.2 then
    r.1 ++
    (if env.hasImageExt g.target_path then process_image_to_image g env
     else process_image_to_video g env)
  else
    r.1

/-- The command line as argparse resolves it, one field per `add_argument` in
`parse_args`: for each `store_true` flag the field records whether the flag
was present on the command line; deprecated arguments keep their `None`-like
defaults as `Option`/zero values (`0` models both Python `None` and `0`,
which `if args.x:` treats alike). -/
structure CliArgs where
  source_path : Path
  target_path : Path
  output_path : Path
  frame_processor : List String
  keep_fps_present : Bool
  keep_audio_present : Bool
  keep_frames_present : Bool
  many_faces_present : Bool
  video_encoder : String
  video_quality : Nat
  max_memory : Nat
  execution_provider : List String
  execution_threads : Nat
  source_path_deprecated : Path
  cpu_cores_deprecated : Nat
  gpu_vendor_deprecated : Option String
  gpu_threads_deprecated : Nat

/-- Semantics of an argparse `action='store_true'` argument with default
`dflt`: the parsed value is `True` when the flag is present, the declared
default otherwise. -/
def store_true (dflt : Bool) (present : Bool) : Bool :=
  if present then true else dflt

/-- First `if` of `handle_deprecated_args`: `-f`/`--face` is translated to
the source path and the output path is re-normalized.  `normOut` stands for
`normalize_output_path` from `modules/utilities.py` (outside `src/`). -/
def deprecatedSource (args : CliArgs) (normOut : Path → Path → Path → Path)
    (g : Globals) : Globals :=
  if pathTruthy args.source_path_deprecated then
    { g with source_path := args.source_path_deprecated,
             output_path := normOut args.source_path_deprecated g.target_path
               args.output_path }
  else g

/-- Second `if` of `handle_deprecated_args`: `--cpu-cores` becomes the thread
count (`0` models the falsy Python values `None` and `0`). -/
def deprecatedCpuCores (args : CliArgs) (g : Globals) : Globals :=
  if args.cpu_cores_deprecated ≠ 0 then
    { g with execution_threads := args.cpu_cores_deprecated }
  else g

/-- One `--gpu-vendor` translation inside `handle_deprecated_args`: when the
deprecated vendor equals `vendor`, the provider list is re-decoded from the
corresponding modern request. -/
def deprecatedGpuVendor (args : CliArgs) (available : List String)
    (vendor req : String) (g : Globals) : Globals :=
  if args.gpu_vendor_deprecated = some vendor then
    { g with execution_providers := decode_execution_providers [req] available }
  else g

/-- Last `if` of `handle_deprecated_args`: `--gpu-threads` becomes the thread
count. -/
def deprecatedGpuThreads (args : CliArgs) (g : Globals) : Globals :=
  if args.gpu_threads_deprecated ≠ 0 then
    { g with execution_threads := args.gpu_threads_deprecated }
  else g

/-- `handle_deprecated_args` from `core.py`: the six sequential `if`
statements, applied in source order to the globals produced by `parse_args`.
`available` stands for the host's `onnxruntime.get_available_providers()`. -/
def handle_deprecated_args (args : CliArgs) (g : Globals)
    (normOut : Path → Path → Path → Path) (available : List String) : Globals :=
  deprecatedGpuThreads args
    (deprecatedGpuVendor args available "amd" "rocm"
      (deprecatedGpuVendor args available "nvidia" "cuda"
        (deprecatedGpuVendor args available "apple" "coreml"
          (deprecatedCpuCores args
            (deprecatedSource args normOut g)))))

/-- `parse_args` from `core.py`: copies the parsed arguments into
`modules.globals`, decodes the execution providers, clears `nsfw`, then runs
the deprecated-argument translation.  `normOut` stands for
`normalize_output_path`, `available` for the host's provider list. -/
def parse_args (args : CliArgs) (normOut : Path → Path → Path → Path)
    (available : List String) : Globals :=
  handle_deprecated_args args
    { source_path := args.source_path
      target_path := args.target_path
      output_path := normOut args.source_path args.target_path args.output_path
      frame_processors := args.frame_processor
      headless := pathTruthy args.source_path || pathTruthy args.target_path ||
        pathTruthy args.output_path
      keep_fps := store_true false args.keep_fps_present
      keep_audio := store_true true args.keep_audio_present
      keep_frames := store_true false args.keep_frames_present
      many_faces := store_true false args.many_faces_present
      video_encoder := args.video_encoder
      video_quality := args.video_quality
      max_memory := args.max_memory
      execution_providers := decode_execution_providers args.execution_provider available
      execution_threads := args.execution_threads
      nsfw := false }
    normOut available

/-- Host platform as classified by `platform.system().lower()` in
`limit_resources`: `'darwin'`, `'windows'`, or anything else (the `else`
branch, i.e. the POSIX `resource`-module path). -/
inductive HostOS where
  | darwin
  | windows
  | posix
  deriving DecidableEq, Repr

/-- Observable effects of `limit_resources`. -/
inductive LimitEvent where
  | setMemoryGrowth (gpu : String)
  | setWorkingSetSize (bytes : Int)
  | setrlimitCall (soft hard : Int)
  | warnClamped
  | warnFailed
  deriving DecidableEq, Repr

/-- Host state read by `limit_resources`: the TensorFlow GPU list, the hard
limit returned by `resource.getrlimit(resource.RLIMIT_DATA)`, and whether
`resource.setrlimit` raises `ValueError`. -/
structure ResEnv where
  gpus : List String
  hardLimit : Int
  setrlimitRaises : Bool

/-- The `resource.setrlimit` call inside the `try` block: either succeeds or
raises `ValueError` (modelled as `Except.error`). -/
def setrlimit_try (renv : ResEnv) (soft hard : Int) : Except String (List LimitEvent) :=
  if renv.setrlimitRaises then Except.error "ValueError"
  else Except.ok [LimitEvent.setrlimitCall soft hard]

/-- `limit_resources` from `core.py`.  The result is `Except.error` only if an
exception escapes the function; the POSIX branch wraps its `setrlimit` call in
`try`/`except ValueError`, clamping the requested ceiling to the hard limit
first (with a printed warning) and degrading to a warning on failure. -/
def limit_resources (os : HostOS) (max_memory : Nat) (renv : ResEnv) :
    Except String (List LimitEvent) :=
  let growth := renv.gpus.map LimitEvent.setMemoryGrowth
  if max_memory = 0 then Except.ok growth
  else
    let memory : Int := (max_memory : Int) * 1024 ^ 3
    match os with
    | HostOS.darwin => Except.ok growth
    | HostOS.windows => Except.ok (growth ++ [LimitEvent.setWorkingSetSize memory])
    | HostOS.posix =>
      let clampEvs : List LimitEvent :=
        if memory > renv.hardLimit then [LimitEvent.warnClamped] else []
      let memory2 : Int := if memory > renv.hardLimit then renv.hardLimit else memory
      match setrlimit_try renv memory2 memory2 with
      | Except.ok evs => Except.ok (growth ++ clampEvs ++ evs)
      | Except.error _ => Except.ok (growth ++ clampEvs ++ [LimitEvent.warnFailed])

/-- The SIGINT handler registered in `parse_args`:
`lambda signal_number, frame: destroy()`. -/
def sigint_handler (g : Globals) : List Event :=
  destroy g true

/-- The `except Exception` handler at the bottom of `run`: prints the failure,
emits a status message, then calls `destroy()`. -/
def run_exception_handler (g : Globals) (msg : String) : List Event :=
  [Event.printMsg ("UI initialization failed: " ++ msg),
   Event.status ("UI initialization failed: " ++ msg) "DLC.CORE"] ++
  destroy g true

/-- A configuration for exercising the image path: a valid image target, an
output path that is not a valid image, default flags, CPU provider. -/
def gImage : Globals :=
  { source_path := some "face.png"
    target_path := some "t.png"
    output_path := some "o.png"
    frame_processors := ["face_swapper"]
    headless := true
    keep_fps := false
    keep_audio := true
    keep_frames := false
    many_faces := false
    video_encoder := "libx264"
    video_quality := 18
    max_memory := 16
    execution_providers := ["CPUExecutionProvider"]
    execution_threads := 8
    nsfw := false }

/-- An environment where the target validates as an image but the output does
not, and where the initial copy to the output path fails (so nothing is ever
written to the output). -/
def envImage : Env :=
  { hasImageExt := fun p => decide (p = some "t.png")
    isImage := fun p => decide (p = some "t.png")
    isVideo := fun _ => false
    predictImage := fun _ => false
    predictVideo := fun _ => false
    detectFps := fun _ => 25
    preStart := fun _ => true
    copyFails := true }

/-- An environment in which every processor reports not-ready. -/
def envNotReady : Env :=
  { hasImageExt := fun _ => true
    isImage := fun _ => true
    isVideo := fun _ => false
    predictImage := fun _ => false
    predictVideo := fun _ => false
    detectFps := fun _ => 30
    preStart := fun _ => false
    copyFails := false }

/-- A host with no GPUs, a hard data limit of one GiB, and a working
`setrlimit`. -/
def renvSample : ResEnv :=
  { gpus := []
    hardLimit := 1073741824
    setrlimitRaises := false }

/-- A plain command line: headless paths, no boolean flag passed, no
deprecated arguments. -/
def argsSample : CliArgs :=
  { source_path := some "face.png"
    target_path := some "clip.mp4"
    output_path := none
    frame_processor := ["face_swapper"]
    keep_fps_present := false
    keep_audio_present := false
    keep_frames_present := false
    many_faces_present := false
    video_encoder := "libx264"
    video_quality := 18
    max_memory := 16
    execution_provider := ["cpu"]
    execution_threads := 8
    source_path_deprecated := none
    cpu_cores_deprecated := 0
    gpu_vendor_deprecated := none
    gpu_threads_deprecated := 0 }

/-- A stand-in for `normalize_output_path` that maps everything to the target
path. -/
def normOutSample : Path → Path → Path → Path :=
  fun _ t _ => t

/-- A configuration with no target path set. -/
def gNoTarget : Globals :=
  { gImage with source_path := none, target_path := none, output_path := none }

/-! Theorems. -/

/-- Looking an element of `l.map f` up by its first index, back in `l`,
yields a member of `l` that `f` maps to that element.  This is the shape of
the Python idiom `available[encoded.index(req)]` used in
`decode_execution_providers`. -/
theorem getD_indexOf_map {α β : Type} [DecidableEq β] (f : α → β) (d : α) :
    ∀ (l : List α) (b : β), b ∈ l.map f →
      f (l.getD ((l.map f).indexOf b) d) = b ∧ l.getD ((l.map f).indexOf b) d ∈ l := by
  intro l
  induction l with
  | nil => intro b hb; simp at hb
  | cons a l ih =>
    intro b hb
    by_cases hfa : f a = b
    · rw [List.map_cons, List.indexOf_cons_eq _ hfa]
      exact ⟨hfa, List.mem_cons_self a l⟩
    · have hb' : b ∈ l.map f := by
        rw [List.map_cons] at hb
        rcases List.mem_cons.mp hb with h | h
        · exact absurd h.symm hfa
        · exact h
      rw [List.map_cons, List.indexOf_cons_ne _ (fun h => hfa h)]
      have := ih b hb'
      exact ⟨by simpa using this.1, List.mem_cons_of_mem a (by simpa using this.2)⟩

/-- For a request whose canonical form occurs among the encoded host
providers, the host provider looked up by `encoded_providers.index(req)`
encodes back to the request and is a member of the host list. -/
theorem encodeProvider_getD_of_mem {H : List String} {req : String}
    (h : req ∈ encode_execution_providers H) :
    encodeProvider (H.getD ((encode_execution_providers H).indexOf req) "") = req ∧
    H.getD ((encode_execution_providers H).indexOf req) "" ∈ H :=
  getD_indexOf_map encodeProvider "" H req h

/-- C2: `decode_execution_providers` always returns a non-empty list; the
selected providers are host providers, their canonical forms are exactly the
requested names that match some host provider, kept in request order; and the
result is the selection when it is non-empty, the single-element
`CPUExecutionProvider` fallback otherwise. -/
theorem decode_execution_providers_resolution (R H : List String) :
    decode_execution_providers R H ≠ [] ∧
    (∀ p ∈ selectedProviders R H, p ∈ H) ∧
    (selectedProviders R H).map encodeProvider =
      R.filter (fun req => req ∈ encode_execution_providers H) ∧
    (selectedProviders R H = [] →
      decode_execution_providers R H = ["CPUExecutionProvider"]) ∧
    (selectedProviders R H ≠ [] →
      decode_execution_providers R H = selectedProviders R H) := by
  refine ⟨?_, ?_, ?_, ?_, ?_⟩
  · unfold decode_execution_providers
    split <;> simp_all
  · intro p hp
    simp only [selectedProviders, List.mem_map, List.mem_filter] at hp
    obtain ⟨req, ⟨_, hreq⟩, rfl⟩ := hp
    exact (encodeProvider_getD_of_mem (of_decide_eq_true hreq)).2
  · unfold selectedProviders
    rw [List.map_map]
    have hcongr : ∀ req ∈ R.filter (fun req => req ∈ encode_execution_providers H),
        (encodeProvider ∘ fun req =>
          H.getD ((encode_execution_providers H).indexOf req) "") req = id req := by
      intro req hreq
      have hmem : req ∈ encode_execution_providers H :=
        of_decide_eq_true (List.mem_filter.mp hreq).2
      simpa using (encodeProvider_getD_of_mem hmem).1
    rw [List.map_congr_left hcongr, List.map_id]
  · intro h
    simp [decode_execution_providers, h]
  · intro h
    simp [decode_execution_providers, h]

/-- Every event of the readiness loop is a readiness check. -/
theorem readinessTrace_events (env : Env) :
    ∀ l : List String, ∀ e ∈ (readinessTrace env l).1, ∃ n, e = Event.preStartCheck n := by
  intro l
  induction l with
  | nil => intro e he; simp [readinessTrace] at he
  | cons p ps ih =>
    intro e he
    by_cases hp : env.preStart p
    · simp only [readinessTrace, if_pos hp, List.mem_cons] at he
      rcases he with h | h
      · exact ⟨p, h⟩
      · exact ih e h
    · simp only [readinessTrace, if_neg hp, List.mem_singleton] at he
      exact ⟨p, he⟩

/-- If some processor in the list is not ready, the readiness loop reports
failure. -/
theorem readinessTrace_not_ready (env : Env) :
    ∀ l : List String, (∃ p ∈ l, env.preStart p = false) → (readinessTrace env l).2 = false := by
  intro l
  induction l with
  | nil => rintro ⟨p, hp, _⟩; simp at hp
  | cons q ps ih =>
    rintro ⟨p, hp, hnp⟩
    by_cases hq : env.preStart q
    · simp only [readinessTrace, if_pos hq]
      rcases List.mem_cons.mp hp with rfl | hmem
      · rw [hq] at hnp; cases hnp
      · exact ih ⟨p, hmem, hnp⟩
    · simp [readinessTrace, if_neg hq]

/-- C3: if any processor in the ordered chain reports not-ready, `start`
aborts before any frame-processing entry point: the whole trace consists of
readiness checks only — in particular no workspace is created, no frame or
image processing entry point runs, and no output is written. -/
theorem start_aborts_when_not_ready (g : Globals) (env : Env)
    (h : ∃ p ∈ g.frame_processors, env.preStart p = false) :
    (∀ e ∈ start g env, ∃ n, e = Event.preStartCheck n) ∧
    (∀ t, Event.createTemp t ∉ start g env) ∧
    (∀ t, Event.extractFrames t ∉ start g env) ∧
    (∀ n s t o, Event.processImage n s t o ∉ start g env) ∧
    (∀ n s, Event.processVideo n s ∉ start g env) ∧
    (∀ s d, Event.copyFile s d ∉ start g env) ∧
    (∀ t o, Event.moveTemp t o ∉ start g env) ∧
    (∀ t o, Event.restoreAudio t o ∉ start g env) ∧
    (∀ t f, Event.createVideo t f ∉ start g env) := by
  have hsnd := readinessTrace_not_ready env g.frame_processors h
  have hmain : ∀ e ∈ start g env, ∃ n, e = Event.preStartCheck n := by
    intro e he
    simp only [start, hsnd, Bool.false_eq_true, if_false] at he
    exact readinessTrace_events env g.frame_processors e he
  refine ⟨hmain, ?_, ?_, ?_, ?_, ?_, ?_, ?_, ?_⟩
  · intro t hc; obtain ⟨n, hn⟩ := hmain _ hc; cases hn
  · intro t hc; obtain ⟨n, hn⟩ := hmain _ hc; cases hn
  · intro n s t o hc; obtain ⟨m, hm⟩ := hmain _ hc; cases hm
  · intro n s hc; obtain ⟨m, hm⟩ := hmain _ hc; cases hm
  · intro s d hc; obtain ⟨m, hm⟩ := hmain _ hc; cases hm
  · intro t o hc; obtain ⟨m, hm⟩ := hmain _ hc; cases hm
  · intro t o hc; obtain ⟨m, hm⟩ := hmain _ hc; cases hm
  · intro t f hc; obtain ⟨m, hm⟩ := hmain _ hc; cases hm

/-- C4: with `keep_fps` unset, the video is created at the fixed default rate
30.0 and fps detection is never called; with `keep_fps` set, fps is first
detected from the target and the video is created at exactly the detected
rate. -/
theorem handle_video_fps_policy (g : Globals) (env : Env) :
    (g.keep_fps = false →
      handle_video_fps g env =
        [Event.status "Creating video with 30.0 fps..." "DLC.CORE",
         Event.createVideo g.target_path create_video_default_fps] ∧
      create_video_default_fps = 30 ∧
      ∀ t, Event.detectFpsCall t ∉ handle_video_fps g env) ∧
    (g.keep_fps = true →
      handle_video_fps g env =
        [Event.status "Detecting fps..." "DLC.CORE",
         Event.detectFpsCall g.target_path,
         Event.status
           ("Creating video with " ++ toString (env.detectFps g.target_path) ++ " fps...")
           "DLC.CORE",
         Event.createVideo g.target_path (env.detectFps g.target_path)]) := by
  refine ⟨fun h => ⟨by simp [handle_video_fps, h], rfl, ?_⟩, fun h => by simp [handle_video_fps, h]⟩
  intro t ht
  simp [handle_video_fps, h] at ht

/-- C5: with `keep_audio` unset, the assembled temporary video is moved
directly to the output path and `restore_audio` is never invoked; with
`keep_audio` set, `restore_audio` runs on (target, output) and no direct move
occurs. -/
theorem handle_video_audio_policy (g : Globals) :
    (g.keep_audio = false →
      handle_video_audio g = [Event.moveTemp g.target_path g.output_path] ∧
      ∀ t o, Event.restoreAudio t o ∉ handle_video_audio g) ∧
    (g.keep_audio = true →
      Event.restoreAudio g.target_path g.output_path ∈ handle_video_audio g ∧
      ∀ t o, Event.moveTemp t o ∉ handle_video_audio g) := by
  constructor
  · intro h
    refine ⟨by simp [handle_video_audio, h], ?_⟩
    intro t o ht
    simp [handle_video_audio, h] at ht
  · intro h
    constructor
    · simp [handle_video_audio, h]
    · intro t o ht
      simp only [handle_video_audio, h, if_pos] at ht
      rcases List.mem_cons.mp ht with hc | hc
      · split at hc <;> cases hc
      · simp at hc

/-- C6: with `keep_audio` set and `keep_fps` unset, the job still restores
audio and continues: the trace is exactly the desynchronization warning
followed by the `restore_audio` call — no error, no abort. -/
theorem handle_video_audio_desync_warning (g : Globals)
    (h1 : g.keep_audio = true) (h2 : g.keep_fps = false) :
    handle_video_audio g =
      [Event.status "Restoring audio might cause issues as fps are not kept..." "DLC.CORE",
       Event.restoreAudio g.target_path g.output_path] := by
  simp [handle_video_audio, h1, h2]

/-- C7: `limit_resources` never escapes with an error on any platform; on the
POSIX branch, a request above the host hard limit is clamped to the hard
limit with a warning printed, and a `ValueError` from `setrlimit` is degraded
to a warning while execution continues. -/
theorem limit_resources_never_fatal (os : HostOS) (max_memory : Nat) (renv : ResEnv) :
    (∀ msg, limit_resources os max_memory renv ≠ Except.error msg) ∧
    (∀ evs, limit_resources HostOS.posix max_memory renv = Except.ok evs →
      max_memory ≠ 0 →
      ((max_memory : Int) * 1024 ^ 3 > renv.hardLimit →
        LimitEvent.warnClamped ∈ evs ∧
        (renv.setrlimitRaises = false →
          LimitEvent.setrlimitCall renv.hardLimit renv.hardLimit ∈ evs)) ∧
      (renv.setrlimitRaises = true → LimitEvent.warnFailed ∈ evs)) := by
  constructor
  · intro msg hmsg
    by_cases hm : max_memory = 0
    · simp [limit_resources, hm] at hmsg
    · by_cases hr : renv.setrlimitRaises <;>
        cases os <;>
        simp [limit_resources, setrlimit_try, hm, hr] at hmsg
  · intro evs hevs hm
    by_cases hr : renv.setrlimitRaises <;>
      by_cases hc : (max_memory : Int) * 1024 ^ 3 > renv.hardLimit <;>
      simp only [limit_resources, setrlimit_try, hm, if_neg hm, hr, hc, if_true, if_false,
        Except.ok.injEq, reduceCtorEq, reduceIte] at hevs <;>
      subst hevs
    · exact ⟨fun _ => ⟨by simp, fun h2 => by rw [hr] at h2; cases h2⟩, fun _ => by simp⟩
    · exact ⟨fun h => absurd h hc, fun _ => by simp⟩
    · exact ⟨fun _ => ⟨by simp, fun _ => by simp⟩, fun h => absurd h hr⟩
    · exact ⟨fun h => absurd h hc, fun h => absurd h hr⟩

/-- C8: on each exit path of `core.py` — the SIGINT handler, the
content-safety short-circuits, and the caught top-level failure in `run` —
`clean_temp` runs on the current target path (before `quit` where the process
terminates) whenever the target path is set. -/
theorem cleanup_on_every_exit_path (g : Globals) (env : Env)
    (h : pathTruthy g.target_path = true) :
    sigint_handler g = [Event.cleanTemp g.target_path, Event.quit] ∧
    (g.nsfw = true → env.predictImage g.target_path = true →
      process_image_to_image g env =
        [Event.cleanTemp g.target_path,
         Event.status "Processing to image ignored!" "DLC.CORE"]) ∧
    (g.nsfw = true → env.predictVideo g.target_path = true →
      process_image_to_video g env =
        [Event.cleanTemp g.target_path,
         Event.status "Processing to video ignored!" "DLC.CORE"]) ∧
    (∀ msg, run_exception_handler g msg =
      [Event.printMsg ("UI initialization failed: " ++ msg),
       Event.status ("UI initialization failed: " ++ msg) "DLC.CORE",
       Event.cleanTemp g.target_path, Event.quit]) := by
  refine ⟨?_, ?_, ?_, ?_⟩
  · simp [sigint_handler, destroy, h]
  · intro h1 h2
    simp [process_image_to_image, destroy, h, h1, h2]
  · intro h1 h2
    simp [process_image_to_video, destroy, h, h1, h2]
  · intro msg
    simp [run_exception_handler, destroy, h]

/-- C9: for every command line, the resolved `keep_audio` flag is `true` —
the flag is a `store_true` action whose default is already `True`, and the
deprecated-argument translation never touches it — so the
`keep_audio = false` branch of `handle_video_audio` (the direct move) is
unreachable from the configuration surface. -/
theorem parse_args_keep_audio_always_true (args : CliArgs)
    (normOut : Path → Path → Path → Path) (available : List String) :
    (parse_args args normOut available).keep_audio = true ∧
    ∀ t o, Event.moveTemp t o ∉ handle_video_audio (parse_args args normOut available) := by
  have hstep : ∀ g : Globals,
      (deprecatedGpuThreads args
        (deprecatedGpuVendor args available "amd" "rocm"
          (deprecatedGpuVendor args available "nvidia" "cuda"
            (deprecatedGpuVendor args available "apple" "coreml"
              (deprecatedCpuCores args
                (deprecatedSource args normOut g)))))).keep_audio = g.keep_audio := by
    intro g
    unfold deprecatedGpuThreads deprecatedGpuVendor deprecatedCpuCores deprecatedSource
    split <;> split <;> split <;> split <;> split <;> split <;> rfl
  have hka : (parse_args args normOut available).keep_audio = true := by
    rw [parse_args, handle_deprecated_args, hstep]
    simp [store_true]
  refine ⟨hka, ?_⟩
  intro t o ht
  simp only [handle_video_audio, hka, if_pos] at ht
  rcases List.mem_cons.mp ht with hc | hc
  · split at hc <;> cases hc
  · simp at hc

/-- C10: `destroy` with a falsy target path (Python `None` or the empty
string) performs no workspace cleanup, and with `to_quit = False` it also
does not terminate the process: its trace is empty. -/
theorem destroy_falsy_target (g : Globals)
    (h : pathTruthy g.target_path = false) :
    (∀ t, Event.cleanTemp t ∉ destroy g true) ∧
    destroy g false = [] := by
  constructor
  · intro t ht
    simp [destroy, h] at ht
  · simp [destroy, h]

/-- C1 counterexample: with a valid image target, an output path that is not
a valid image, and a failing copy (so the output file is never written),
`process_image_to_image` still ends with the success status — the terminal
status is computed from `is_image(target_path)`, not by re-validating the
output artifact. -/
theorem status_not_from_output_counterexample :
    process_image_to_image gImage envImage =
      [Event.printMsg "Error copying file",
       Event.status "Processing..." "face_swapper",
       Event.processImage "face_swapper" (some "face.png") (some "o.png") (some "o.png"),
       Event.status "Processing to image succeeded!" "DLC.CORE"] ∧
    envImage.isImage gImage.output_path = false := by
  constructor
  · decide
  · decide

/-- C1 (amended): when the content-safety short-circuit does not fire, the
terminal success/failure status of both the image path and the video path is
determined by re-validating the media type of the target path (not of the
output path): success is reported iff `is_image` (resp. `is_video`) holds of
the target path. -/
theorem terminal_status_revalidates_target (g : Globals) (env : Env)
    (h1 : (g.nsfw && env.predictImage g.target_path) = false)
    (h2 : (g.nsfw && env.predictVideo g.target_path) = false) :
    ((process_image_to_image g env).getLast? =
        some (Event.status "Processing to image succeeded!" "DLC.CORE") ↔
      env.isImage g.target_path = true) ∧
    ((process_image_to_video g env).getLast? =
        some (Event.status "Processing to video succeeded!" "DLC.CORE") ↔
      env.isVideo g.target_path = true) := by
  constructor
  · simp only [process_image_to_image, h1, Bool.false_eq_true, if_false]
    rw [List.getLast?_append_cons]
    cases hI : env.isImage g.target_path <;> simp [hI]
  · simp only [process_image_to_video, h2, Bool.false_eq_true, if_false]
    rw [List.getLast?_append_cons]
    cases hV : env.isVideo g.target_path <;> simp [hV]

/-- Concrete instance of the amended C1 theorem on the image path. -/
theorem terminal_status_revalidates_target_witness :
    (gImage.nsfw && envImage.predictImage gImage.target_path) = false ∧
    ((process_image_to_image gImage envImage).getLast? =
        some (Event.status "Processing to image succeeded!" "DLC.CORE") ↔
      envImage.isImage gImage.target_path = true) :=
  ⟨by decide,
   (terminal_status_revalidates_target gImage envImage (by decide) (by decide)).1⟩

/-- Concrete instances of C2: one request list that matches a host provider
and one that matches none, with every hypothesis discharged by evaluation. -/
theorem decode_execution_providers_resolution_witness :
    "CUDAExecutionProvider" ∈
      selectedProviders ["cuda", "cpu"] ["CPUExecutionProvider", "CUDAExecutionProvider"] ∧
    "CUDAExecutionProvider" ∈ ["CPUExecutionProvider", "CUDAExecutionProvider"] ∧
    selectedProviders ["tensorrt"] ["CPUExecutionProvider"] = [] ∧
    decode_execution_providers ["tensorrt"] ["CPUExecutionProvider"] =
      ["CPUExecutionProvider"] ∧
    selectedProviders ["cuda", "cpu"] ["CPUExecutionProvider", "CUDAExecutionProvider"] ≠ [] ∧
    decode_execution_providers ["cuda", "cpu"] ["CPUExecutionProvider", "CUDAExecutionProvider"] =
      selectedProviders ["cuda", "cpu"] ["CPUExecutionProvider", "CUDAExecutionProvider"] := by
  refine ⟨by decide, ?_, by decide, ?_, by decide, ?_⟩
  · exact (decode_execution_providers_resolution ["cuda", "cpu"]
      ["CPUExecutionProvider", "CUDAExecutionProvider"]).2.1 "CUDAExecutionProvider" (by decide)
  · exact (decode_execution_providers_resolution ["tensorrt"]
      ["CPUExecutionProvider"]).2.2.2.1 (by decide)
  · exact (decode_execution_providers_resolution ["cuda", "cpu"]
      ["CPUExecutionProvider", "CUDAExecutionProvider"]).2.2.2.2 (by decide)

/-- Concrete instance of C3: one not-ready processor, and no workspace
creation appears in the resulting trace. -/
theorem start_aborts_when_not_ready_witness :
    envNotReady.preStart "face_swapper" = false ∧
    Event.createTemp (some "t.png") ∉ start gImage envNotReady :=
  ⟨rfl,
   (start_aborts_when_not_ready gImage envNotReady
      ⟨"face_swapper", by decide, rfl⟩).2.1 (some "t.png")⟩

/-- Concrete instance of C4 on a configuration with `keep_fps` unset. -/
theorem handle_video_fps_policy_witness :
    gImage.keep_fps = false ∧
    handle_video_fps gImage envImage =
      [Event.status "Creating video with 30.0 fps..." "DLC.CORE",
       Event.createVideo gImage.target_path create_video_default_fps] ∧
    create_video_default_fps = 30 :=
  ⟨rfl,
   ((handle_video_fps_policy gImage envImage).1 rfl).1,
   ((handle_video_fps_policy gImage envImage).1 rfl).2.1⟩

/-- Concrete instance of C5 on a configuration with `keep_audio` set. -/
theorem handle_video_audio_policy_witness :
    gImage.keep_audio = true ∧
    Event.restoreAudio gImage.target_path gImage.output_path ∈ handle_video_audio gImage ∧
    Event.moveTemp (some "t.png") (some "o.png") ∉ handle_video_audio gImage :=
  ⟨rfl,
   ((handle_video_audio_policy gImage).2 rfl).1,
   ((handle_video_audio_policy gImage).2 rfl).2 (some "t.png") (some "o.png")⟩

/-- Concrete instance of C6: `keep_audio` set, `keep_fps` unset. -/
theorem handle_video_audio_desync_warning_witness :
    handle_video_audio gImage =
      [Event.status "Restoring audio might cause issues as fps are not kept..." "DLC.CORE",
       Event.restoreAudio gImage.target_path gImage.output_path] :=
  handle_video_audio_desync_warning gImage rfl rfl

/-- Concrete instance of C7: a 16 GiB request against a 1 GiB hard limit on
the POSIX branch is clamped with a warning, and the darwin branch returns
without error. -/
theorem limit_resources_never_fatal_witness :
    limit_resources HostOS.posix 16 renvSample =
      Except.ok [LimitEvent.warnClamped,
        LimitEvent.setrlimitCall renvSample.hardLimit renvSample.hardLimit] ∧
    LimitEvent.warnClamped ∈
      [LimitEvent.warnClamped,
       LimitEvent.setrlimitCall renvSample.hardLimit renvSample.hardLimit] ∧
    limit_resources HostOS.darwin 16 renvSample ≠ Except.error "ValueError" := by
  refine ⟨by rfl, ?_, ?_⟩
  · exact (((limit_resources_never_fatal HostOS.posix 16 renvSample).2
      [LimitEvent.warnClamped,
       LimitEvent.setrlimitCall renvSample.hardLimit renvSample.hardLimit]
      (by rfl) (by decide)).1 (by decide)).1
  · exact (limit_resources_never_fatal HostOS.darwin 16 renvSample).1 "ValueError"

/-- Concrete instance of C8: with a set target path the SIGINT handler cleans
the workspace before quitting. -/
theorem cleanup_on_every_exit_path_witness :
    pathTruthy gImage.target_path = true ∧
    sigint_handler gImage = [Event.cleanTemp gImage.target_path, Event.quit] :=
  ⟨by decide, (cleanup_on_every_exit_path gImage envImage (by decide)).1⟩

/-- Concrete instance of C9 on a plain command line. -/
theorem parse_args_keep_audio_always_true_witness :
    (parse_args argsSample normOutSample ["CPUExecutionProvider"]).keep_audio = true ∧
    Event.moveTemp (some "clip.mp4") (some "clip.mp4") ∉
      handle_video_audio (parse_args argsSample normOutSample ["CPUExecutionProvider"]) :=
  ⟨(parse_args_keep_audio_always_true argsSample normOutSample ["CPUExecutionProvider"]).1,
   (parse_args_keep_audio_always_true argsSample normOutSample ["CPUExecutionProvider"]).2
     (some "clip.mp4") (some "clip.mp4")⟩

/-- Concrete instance of C10: no target path set. -/
theorem destroy_falsy_target_witness :
    Event.cleanTemp none ∉ destroy gNoTarget true ∧
    destroy gNoTarget false = [] :=
  ⟨(destroy_falsy_target gNoTarget (by decide)).1 none,
   (destroy_falsy_target gNoTarget (by decide)).2⟩

end Core
